import Mathlib

/-!
Verification of the local RAG comparator service.

The repository source under verification is `api.py` (the FastAPI route
layer).  The `core` module it imports (chunker, embedder, index store,
retriever, context assembler) is part of the repository but its file is not
available here; those operations are modelled from the specification, each
such definition carrying a doc comment starting with `Modelled from the
spec:`.  Everything else is a direct shallow embedding of `api.py`.

Conventions:
  * Python strings are Lean `String`s (lists of characters).
  * A JSON payload field that may be absent or `null` is an `Option`.
  * Exceptions are `Except`: a raised exception is `.error msg` where `msg`
    is Python's `str(e)`.
  * Wall-clock latency fields of responses are omitted (real time is not
    part of the shallow embedding).
  * Similarity scores are `ℚ` (the ordering/clamping contracts under
    verification do not depend on the numeric type).
-/

namespace LocalRag

/-- Python `str.strip()` restricted to ASCII whitespace: drop whitespace
characters from both ends of the string. -/
def pyStrip (s : String) : String :=
  String.mk (((s.data.dropWhile Char.isWhitespace).reverse.dropWhile
    Char.isWhitespace).reverse)

/-- Python `posixpath.basename`: everything after the last `/` (the whole
string when no `/` occurs).  Implemented as: the longest `/`-free suffix. -/
def pyBasename (s : String) : String :=
  String.mk ((s.data.reverse.takeWhile (fun c => c ≠ '/')).reverse)

/-- Python `os.path.splitext(s)[1]` for a path without directory
separators (in `api.py` it is only applied to a basename): the suffix
starting at the last dot, except that a dot is not an extension separator
when every character before it is itself a dot (so `.bashrc`, `.`, `..`
have empty extension). -/
def pySplitextExt (s : String) : String :=
  let l := s.data
  let afterLastDot := (l.reverse.takeWhile (fun c => c ≠ '.')).length
  if afterLastDot = l.length then ""
  else
    let dotIdx := l.length - afterLastDot - 1
    if (l.take dotIdx).all (fun c => c = '.') then ""
    else String.mk (l.drop dotIdx)

/-- Python `str.lower()` (ASCII). -/
def pyLower (s : String) : String :=
  String.mk (s.data.map Char.toLower)

/-- Python `int(x or d)` for an optional integer field `x`: `None` and `0`
are falsy, so they yield the default `d`; any other integer passes through
unchanged. -/
def pyIntOr (x : Option Int) (d : Int) : Int :=
  match x with
  | none => d
  | some n => if n = 0 then d else n

/-- Modelled from the spec: the query-time error taxonomy of the missing
`core` module (section 7): `EmptyIndexError` for a query against no index,
distinguished from errors during similarity computation. -/
inductive CoreErr where
  | emptyIndex : CoreErr
  | simComp (msg : String) : CoreErr
deriving DecidableEq

/-- Modelled from the spec: the message `str(e)` carried by each query-time
core error, rendering "operation, cause" as section 7 requires. -/
def errMsg : CoreErr → String
  | .emptyIndex => "EmptyIndexError: no index is loaded"
  | .simComp m => "SimilarityComputationError: " ++ m

/-- Modelled from the spec: scoring every stored chunk against the query
(the similarity computation step of `core.retrieve`); the first failing
similarity computation aborts with its message. -/
def scoreChunks (sim : α → Except String ℚ) : List α → Except String (List (α × ℚ))
  | [] => .ok []
  | a :: rest =>
    match sim a with
    | .error m => .error m
    | .ok s =>
      match scoreChunks sim rest with
      | .error m => .error m
      | .ok tail => .ok ((a, s) :: tail)

/-- Ranking order used by the retriever: higher similarity score first,
ties broken by smaller original insertion index.  An entry is
`(insertion index, chunk metadata, score)`. -/
def hitLE (a b : Nat × α × ℚ) : Prop :=
  b.2.2 < a.2.2 ∨ (a.2.2 = b.2.2 ∧ a.1 ≤ b.1)

instance : DecidableRel (hitLE (α := α)) := fun a b => by
  unfold hitLE; infer_instance

instance : IsTotal (Nat × α × ℚ) hitLE := by
  constructor
  intro a b
  unfold hitLE
  rcases lt_trichotomy a.2.2 b.2.2 with h | h | h
  · exact Or.inr (Or.inl h)
  · rcases Nat.le_total a.1 b.1 with h' | h'
    · exact Or.inl (Or.inr ⟨h, h'⟩)
    · exact Or.inr (Or.inr ⟨h.symm, h'⟩)
  · exact Or.inl (Or.inl h)

instance : IsTrans (Nat × α × ℚ) hitLE := by
  constructor
  intro a b c hab hbc
  unfold hitLE at *
  rcases hab with h1 | ⟨h1, h1'⟩ <;> rcases hbc with h2 | ⟨h2, h2'⟩
  · exact Or.inl (lt_trans h2 h1)
  · exact Or.inl (h2 ▸ h1)
  · exact Or.inl (h1 ▸ h2)
  · exact Or.inr ⟨h1.trans h2, h1'.trans h2'⟩

/-- Modelled from the spec: the ranking step of `core.retrieve` (section
4.4): pair every scored chunk with its insertion index (metadata record `i`
corresponds to vector `i`), stably sort by descending similarity score, and
keep the first `top_k` (so a `top_k` beyond the index size is clamped). -/
def rankHits (scored : List (α × ℚ)) (topk : Nat) : List (Nat × α × ℚ) :=
  (List.insertionSort hitLE scored.enum).take topk

/-- Modelled from the spec: `core.retrieve` (sections 4.4 and 7).  Fails
with `EmptyIndexError` when no index is loaded; a failure while computing
similarities surfaces as a distinct similarity-computation error; otherwise
returns the ranked top-k hits. -/
def coreRetrieve (loaded : Option (List α)) (sim : α → Except String ℚ)
    (topk : Int) : Except CoreErr (List (Nat × α × ℚ)) :=
  match loaded with
  | none => .error .emptyIndex
  | some idx =>
    match scoreChunks sim idx with
    | .error m => .error (.simComp m)
    | .ok scored => .ok (rankHits scored topk.toNat)

/-- Modelled from the spec: the chunker's window offsets (section 4.1).
Starting at `start`, each window covers `size` characters, the next window
starts `step` characters later, and the walk stops with a final (possibly
shorter) window once the window reaches the end of the text.  `fuel` is an
upper bound on the number of windows, supplied as `len` at the top level
(each step advances by `step ≥ 1`). -/
def chunkWindows (len size step : Nat) : Nat → Nat → List (Nat × Nat)
  | 0, start => [(start, len)]
  | fuel + 1, start =>
    if len ≤ start + size then [(start, len)]
    else (start, start + size) :: chunkWindows len size step fuel (start + step)

/-- Modelled from the spec: the chunker's offset ranges for a text of
length `len` (section 4.1): window length `chunk_size`, advance
`chunk_size - overlap`; `overlap ≥ chunk_size` is rejected as
`InvalidConfig`. -/
def chunkRanges (csize overlap len : Nat) : Except String (List (Nat × Nat)) :=
  if overlap < csize then
    .ok (chunkWindows len csize (csize - overlap) len 0)
  else .error "InvalidConfig: overlap must be smaller than chunk_size"

/-- Modelled from the spec: `core.chunk` — each window becomes a chunk
carrying its offset range and the corresponding slice of the text. -/
def chunk (csize overlap : Nat) (text : String) :
    Except String (List (Nat × Nat × String)) :=
  (chunkRanges csize overlap text.length).map
    (List.map (fun r => (r.1, r.2, String.mk ((text.data.drop r.1).take (r.2 - r.1)))))

/-- The JSON payload of `POST /api/query` as read by `api_query`:
`payload.get("question")` and `payload.get("top_k")`. -/
structure QueryPayload where
  question : Option String
  top_k : Option Int
deriving DecidableEq

/-- An observable call to a `core` collaborator made while handling a
query: the retrieval call, or a call to the external generation
collaborator `core.ollama_chat(system, user)`. -/
inductive Event (α : Type) where
  | retrieveCall (question : String) (topk : Int) : Event α
  | chatCall (system user : String) : Event α
deriving DecidableEq

/-- The chat calls (system prompt, user prompt) contained in a trace, in
order. -/
def chatCalls : List (Event α) → List (String × String) :=
  List.filterMap (fun e =>
    match e with
    | .retrieveCall _ _ => none
    | .chatCall s u => some (s, u))

/-- Outcome of `POST /api/query`: the success JSON (rag answer, retrieved
chunks, bare answer, the `used.top_k` echo) or an `HTTPException`. -/
inductive QueryResult (α : Type) where
  | success (ragAnswer : String) (chunks : List (Nat × α × ℚ))
      (llmAnswer : String) (usedTopK : Int) : QueryResult α
  | httpError (status : Nat) (detail : String) : QueryResult α
deriving DecidableEq

/-- The `core` collaborators `api_query` depends on: the loaded index (or
`none` when no index is loaded), the similarity scorer obtained from
embedding a question, `core.build_context`, `core.ollama_chat` (the
external generation collaborator, which may fail), the two system prompts
and `core.TOP_K_DEFAULT`. -/
structure CoreIface (α : Type) where
  loaded : Option (List α)
  sim : String → α → Except String ℚ
  buildContext : List (Nat × α × ℚ) → String
  chat : String → String → Except String String
  SYSTEM_PROMPT_RAG : String
  SYSTEM_PROMPT_BARE : String
  TOP_K_DEFAULT : Int

/-- Shallow embedding of `api_query` (`api.py` lines 91-125) together with
the trace of core collaborator calls it makes.  A missing question yields
HTTP 400 before anything else runs; a raised core error is caught and
re-raised as HTTP 500 carrying `str(e)`. -/
def api_query (c : CoreIface α) (p : QueryPayload) :
    QueryResult α × List (Event α) :=
  let question := pyStrip (p.question.getD "")
  if question = "" then
    (.httpError 400 "\x27question\x27 is required", [])
  else
    let topk := pyIntOr p.top_k c.TOP_K_DEFAULT
    match coreRetrieve c.loaded (c.sim question) topk with
    | .error e => (.httpError 500 (errMsg e), [.retrieveCall question topk])
    | .ok hits =>
      let ragUser := "Question:\n" ++ question ++ "\n\nContext:\n" ++ c.buildContext hits
      match c.chat c.SYSTEM_PROMPT_RAG ragUser with
      | .error e =>
        (.httpError 500 e,
         [.retrieveCall question topk, .chatCall c.SYSTEM_PROMPT_RAG ragUser])
      | .ok ragAns =>
        match c.chat c.SYSTEM_PROMPT_BARE question with
        | .error e =>
          (.httpError 500 e,
           [.retrieveCall question topk, .chatCall c.SYSTEM_PROMPT_RAG ragUser,
            .chatCall c.SYSTEM_PROMPT_BARE question])
        | .ok bareAns =>
          (.success ragAns hits bareAns topk,
           [.retrieveCall question topk, .chatCall c.SYSTEM_PROMPT_RAG ragUser,
            .chatCall c.SYSTEM_PROMPT_BARE question])

/-- The `IndexStats` record returned by a successful build (spec section
4.3). -/
structure IndexStats where
  num_documents : Nat
  num_chunks : Nat
  dimension : Nat
  model_name : String
deriving DecidableEq

/-- Outcome of `POST /api/build`: the success JSON or an `HTTPException`.
The wall-clock `ms` field of the success JSON is omitted. -/
inductive BuildResult where
  | ok (stats : IndexStats) : BuildResult
  | httpError (status : Nat) (detail : String) : BuildResult
deriving DecidableEq

/-- Shallow embedding of `api_build` (`api.py` lines 81-89): run
`core.build_index_from_data` and catch any exception as HTTP 500 with
`str(e)` as detail.  `buildOutcome` is the outcome of the core build call. -/
def api_build (buildOutcome : Except String IndexStats) : BuildResult :=
  match buildOutcome with
  | .ok stats => .ok stats
  | .error e => .httpError 500 e

/-- The directories `clear_data` touches: `none` means the directory does
not exist, `some files` that it exists with the given contents. -/
structure FS where
  dataDir : Option (List String)
  artifactsDir : Option (List String)
deriving DecidableEq

/-- Python `if os.path.isdir(d): shutil.rmtree(d)`. -/
def pyRmtreeIfDir (d : Option (List String)) : Option (List String) :=
  match d with
  | some _ => none
  | none => none

/-- Python `os.makedirs(d, exist_ok=True)` on a path that is absent or a
directory. -/
def pyMakedirs (d : Option (List String)) : Option (List String) :=
  match d with
  | some files => some files
  | none => some []

/-- Shallow embedding of `clear_data` (`api.py` lines 54-62): remove and
recreate the data directory, then the artifacts directory, and answer
`{"cleared": true}`. -/
def clear_data (fs : FS) : FS × Bool :=
  ({ dataDir := pyMakedirs (pyRmtreeIfDir fs.dataDir),
     artifactsDir := pyMakedirs (pyRmtreeIfDir fs.artifactsDir) }, true)

/-- One entry of the `files` form field of `POST /api/upload`:
`UploadFile.filename` (which may be `None`) and the byte length of the
uploaded content. -/
structure UploadFileIn where
  filename : Option String
  content : Nat
deriving DecidableEq

/-- Outcome of `POST /api/upload`: the saved `(name, bytes)` records or an
`HTTPException`. -/
inductive UploadResult where
  | ok (saved : List (String × Nat)) : UploadResult
  | httpError (status : Nat) (detail : String) : UploadResult
deriving DecidableEq

/-- The per-file admission step of `upload` (`api.py` lines 67-71): take
the basename of the client-supplied filename, and keep the file exactly
when the basename is non-empty and its lowercased extension is allowed. -/
def savedName (allowed : List String) (uf : UploadFileIn) : Option String :=
  let name := pyBasename (uf.filename.getD "")
  if name = "" then none
  else if pyLower (pySplitextExt name) ∈ allowed then some name
  else none

/-- Shallow embedding of `upload` (`api.py` lines 64-79): save every
admissible file under its basename, silently skipping the rest; fail with
HTTP 400 when nothing was saved. -/
def upload (allowed : List String) (files : List UploadFileIn) : UploadResult :=
  let saved := files.filterMap
    (fun uf => (savedName allowed uf).map (fun n => (n, uf.content)))
  if saved = [] then
    .httpError 400 "No files saved (empty selection or unsupported extensions)"
  else .ok saved

/-- A concrete core interface used to instantiate the query theorems on
closed inputs. -/
def cW : CoreIface String where
  loaded := some ["alpha", "beta"]
  sim := fun _ _ => .ok 1
  buildContext := fun _ => "CTX"
  chat := fun s _ => .ok ("ans:" ++ s)
  SYSTEM_PROMPT_RAG := "ragsys"
  SYSTEM_PROMPT_BARE := "baresys"
  TOP_K_DEFAULT := 5

/-- A concrete query payload with a valid question and no `top_k`. -/
def pW : QueryPayload := { question := some "hi", top_k := none }

/-- The hits `cW` retrieves for any question with the default `top_k`. -/
def hitsW : List (Nat × String × ℚ) := [(0, "alpha", 1), (1, "beta", 1)]

/-- `cW` with no index loaded. -/
def cEmpty : CoreIface String := { cW with loaded := none }

/-- `cW` with a failing generation collaborator. -/
def cChatErr : CoreIface String :=
  { cW with chat := fun s _ => .error ("fail:" ++ s) }

/-- A concrete corpus for the retrieval witness. -/
def idxW : List String := ["alpha", "beta"]

/-- A concrete similarity scorer giving every chunk the same score. -/
def simW : String → Except String ℚ := fun _ => .ok 1

/-- The scores `simW` assigns to `idxW`. -/
def scoredW : List (String × ℚ) := [("alpha", 1), ("beta", 1)]

/-- A 3000-character document for the chunking scenario. -/
def docW : String := String.mk (List.replicate 3000 'x')

/-- Concrete upload inputs: one admissible file with a directory component,
one disallowed extension, one missing filename. -/
def filesW : List UploadFileIn :=
  [{ filename := some "docs/a.txt", content := 3 },
   { filename := some "b.exe", content := 7 },
   { filename := none, content := 1 }]

/-- Concrete allowed-extension set for the upload witness. -/
def allowedW : List String := [".txt", ".md"]

/-- Concrete build statistics for the build witness. -/
def statsW : IndexStats :=
  { num_documents := 1, num_chunks := 2, dimension := 3, model_name := "m" }

/-! ## Helper lemmas -/

theorem string_data_append (a b : String) : (a ++ b).data = a.data ++ b.data := by
  cases a; cases b; rfl

theorem errMsg_empty_ne_sim (m : String) :
    errMsg CoreErr.emptyIndex ≠ errMsg (CoreErr.simComp m) := by
  intro h
  have h2 : (errMsg CoreErr.emptyIndex).data.head? =
      (errMsg (CoreErr.simComp m)).data.head? := by rw [h]
  have e1 : (errMsg CoreErr.emptyIndex).data.head? = some 'E' := rfl
  have e2 : (errMsg (CoreErr.simComp m)).data.head? = some 'S' := by
    show (("SimilarityComputationError: " : String) ++ m).data.head? = some 'S'
    rw [string_data_append]
    rfl
  rw [e1, e2] at h2
  exact absurd h2 (by decide)

theorem pyStrip_of_all_whitespace (s : String)
    (h : s.data.all Char.isWhitespace = true) : pyStrip s = "" := by
  unfold pyStrip
  have h1 : s.data.dropWhile Char.isWhitespace = [] := by
    rw [List.dropWhile_eq_nil_iff]
    intro x hx
    exact (List.all_eq_true.mp h) x hx
  rw [h1]
  rfl

/-! ## Claims -/

/-- C5: every error raised during an index build propagates through
`api_build` as HTTP 500 carrying the underlying error's message, and no
build-time error is swallowed into a success response (a success response
can only come from a successful core build). -/
theorem C5_build_errors_propagate :
    (∀ e : String, api_build (.error e) = .httpError 500 e) ∧
    (∀ (b : Except String IndexStats) (s : IndexStats),
      api_build b = .ok s → b = .ok s) := by
  constructor
  · intro e; rfl
  · intro b s h
    cases b with
    | ok s' =>
      simp only [api_build] at h
      cases h
      rfl
    | error e => simp [api_build] at h

/-- C5 witness: a concrete failed build surfaces as HTTP 500 with the error
string, and a concrete success response pins the build outcome. -/
theorem C5_build_errors_propagate_witness :
    api_build (.error "disk full") = .httpError 500 "disk full" ∧
    (Except.ok statsW : Except String IndexStats) = .ok statsW :=
  ⟨C5_build_errors_propagate.1 "disk full",
   C5_build_errors_propagate.2 (.ok statsW) statsW rfl⟩

/-- C7: after `clear_data` completes, the data directory and the artifacts
directory both exist and are empty (all uploaded documents and all
persisted index artifacts are gone), and the response is `cleared = true`,
whatever the prior state of the two directories was. -/
theorem C7_clear_data_resets_state (fs : FS) :
    clear_data fs = ({ dataDir := some [], artifactsDir := some [] }, true) := by
  cases fs with
  | mk d a => cases d <;> cases a <;> rfl

/-- C8: a query whose `question` field is absent, null, or whitespace-only
is rejected with HTTP 400 and detail `'question' is required`, before any
retrieval or generation call happens (the call trace is empty). -/
theorem C8_missing_question_rejected (c : CoreIface α) (p : QueryPayload)
    (h : p.question = none ∨
      ∃ s, p.question = some s ∧ s.data.all Char.isWhitespace = true) :
    api_query c p = (.httpError 400 "\x27question\x27 is required", []) := by
  have hq : pyStrip (p.question.getD "") = "" := by
    rcases h with h | ⟨s, hs, hws⟩
    · rw [h]; rfl
    · rw [hs]
      exact pyStrip_of_all_whitespace s hws
  unfold api_query
  rw [hq]
  rfl

/-- C8 witness: a whitespace-only question on a concrete interface yields
exactly the 400 rejection with no collaborator calls. -/
theorem C8_missing_question_rejected_witness :
    api_query cW { question := some " ", top_k := none } =
      (.httpError 400 "\x27question\x27 is required", []) :=
  C8_missing_question_rejected cW { question := some " ", top_k := none }
    (Or.inr ⟨" ", rfl, by decide⟩)

theorem api_query_trace_head (c : CoreIface α) (p : QueryPayload)
    (hq : pyStrip (p.question.getD "") ≠ "") :
    (api_query c p).2.head? =
      some (.retrieveCall (pyStrip (p.question.getD ""))
        (pyIntOr p.top_k c.TOP_K_DEFAULT)) := by
  unfold api_query
  rw [if_neg hq]
  rcases hr : coreRetrieve c.loaded (c.sim (pyStrip (p.question.getD "")))
      (pyIntOr p.top_k c.TOP_K_DEFAULT) with e | hits
  · simp [hr]
  · rcases h1 : c.chat c.SYSTEM_PROMPT_RAG
        ("Question:\n" ++ pyStrip (p.question.getD "") ++ "\n\nContext:\n" ++
          c.buildContext hits) with e | a1
    · simp [hr, h1]
    · rcases h2 : c.chat c.SYSTEM_PROMPT_BARE (pyStrip (p.question.getD ""))
        with e | a2 <;> simp [hr, h1, h2]

/-- C9: when the query gets past question validation, an absent, null or
zero `top_k` is replaced by `TOP_K_DEFAULT` in the retrieval call, while
any non-zero integer (negative ones included) is passed through to
retrieval unchanged, with no positivity check. -/
theorem C9_topk_defaulting (c : CoreIface α) (p : QueryPayload)
    (hq : pyStrip (p.question.getD "") ≠ "") :
    ((p.top_k = none ∨ p.top_k = some 0) →
      (api_query c p).2.head? =
        some (.retrieveCall (pyStrip (p.question.getD "")) c.TOP_K_DEFAULT)) ∧
    (∀ n : Int, p.top_k = some n → n ≠ 0 →
      (api_query c p).2.head? =
        some (.retrieveCall (pyStrip (p.question.getD "")) n)) := by
  constructor
  · intro h
    have hd : pyIntOr p.top_k c.TOP_K_DEFAULT = c.TOP_K_DEFAULT := by
      rcases h with h | h <;> rw [h] <;> simp [pyIntOr]
    rw [← hd]
    exact api_query_trace_head c p hq
  · intro n hn hnz
    have hd : pyIntOr p.top_k c.TOP_K_DEFAULT = n := by
      rw [hn]; simp [pyIntOr, hnz]
    rw [← hd]
    exact api_query_trace_head c p hq

/-- C9 witness: with `top_k` absent the concrete interface's default 5 is
what reaches the retrieval call. -/
theorem C9_topk_defaulting_witness :
    (api_query cW pW).2.head? =
      some (.retrieveCall (pyStrip (pW.question.getD "")) cW.TOP_K_DEFAULT) :=
  (C9_topk_defaulting cW pW (by decide)).1 (Or.inl rfl)

/-- C4: a query against a missing index (the state before any successful
build) fails with the `EmptyIndexError` message carried in an HTTP 500 —
not a crash and not a silently returned empty list — and that message is
distinct from the message of every similarity-computation error. -/
theorem C4_empty_index_distinct_error (c : CoreIface α) (p : QueryPayload)
    (hq : pyStrip (p.question.getD "") ≠ "") (hempty : c.loaded = none) :
    api_query c p =
      (.httpError 500 (errMsg .emptyIndex),
       [.retrieveCall (pyStrip (p.question.getD ""))
          (pyIntOr p.top_k c.TOP_K_DEFAULT)]) ∧
    (∀ m, errMsg CoreErr.emptyIndex ≠ errMsg (.simComp m)) := by
  constructor
  · have hrew : coreRetrieve c.loaded (c.sim (pyStrip (p.question.getD "")))
        (pyIntOr p.top_k c.TOP_K_DEFAULT) = .error .emptyIndex := by
      rw [hempty]; rfl
    unfold api_query
    rw [if_neg hq]
    simp [hrew]
  · exact errMsg_empty_ne_sim

/-- C4 witness: querying the concrete no-index interface yields the 500
with the `EmptyIndexError` message after the single retrieval attempt. -/
theorem C4_empty_index_distinct_error_witness :
    api_query cEmpty pW =
      (.httpError 500 (errMsg .emptyIndex),
       [.retrieveCall (pyStrip (pW.question.getD ""))
          (pyIntOr pW.top_k cEmpty.TOP_K_DEFAULT)]) ∧
    (∀ m, errMsg CoreErr.emptyIndex ≠ errMsg (.simComp m)) :=
  C4_empty_index_distinct_error cEmpty pW (by decide) rfl

/-- C6: if the external generation collaborator raises during a query —
on either of its two invocations — `api_query` answers HTTP 500 carrying
the failure's message instead of a success response with empty text. -/
theorem C6_generation_failure_surfaces (c : CoreIface α) (p : QueryPayload)
    (q : String) (hits : List (Nat × α × ℚ))
    (hq : pyStrip (p.question.getD "") = q) (hne : q ≠ "")
    (hr : coreRetrieve c.loaded (c.sim q) (pyIntOr p.top_k c.TOP_K_DEFAULT) =
      .ok hits) :
    (∀ e, c.chat c.SYSTEM_PROMPT_RAG
        ("Question:\n" ++ q ++ "\n\nContext:\n" ++ c.buildContext hits) =
          .error e →
      (api_query c p).1 = .httpError 500 e) ∧
    (∀ a e, c.chat c.SYSTEM_PROMPT_RAG
        ("Question:\n" ++ q ++ "\n\nContext:\n" ++ c.buildContext hits) =
          .ok a →
      c.chat c.SYSTEM_PROMPT_BARE q = .error e →
      (api_query c p).1 = .httpError 500 e) := by
  subst hq
  constructor
  · intro e h1
    unfold api_query
    rw [if_neg hne]
    simp [hr, h1]
  · intro a e h1 h2
    unfold api_query
    rw [if_neg hne]
    simp [hr, h1, h2]

/-- C6 witness: the concrete failing collaborator turns the query into an
HTTP 500 carrying its message. -/
theorem C6_generation_failure_surfaces_witness :
    (api_query cChatErr pW).1 = .httpError 500 "fail:ragsys" :=
  (C6_generation_failure_surfaces cChatErr pW "hi" hitsW (by decide)
      (by decide) rfl).1 "fail:ragsys" rfl

/-- C1: on a successful query the generation collaborator is invoked
exactly twice — first with the RAG system prompt and a user prompt holding
the question followed by the assembled context, then with the bare system
prompt and the question alone — and both answers are returned side by side
in the success response. -/
theorem C1_two_generation_calls (c : CoreIface α) (p : QueryPayload)
    (q a1 a2 : String) (hits : List (Nat × α × ℚ))
    (hq : pyStrip (p.question.getD "") = q) (hne : q ≠ "")
    (hr : coreRetrieve c.loaded (c.sim q) (pyIntOr p.top_k c.TOP_K_DEFAULT) =
      .ok hits)
    (h1 : c.chat c.SYSTEM_PROMPT_RAG
      ("Question:\n" ++ q ++ "\n\nContext:\n" ++ c.buildContext hits) = .ok a1)
    (h2 : c.chat c.SYSTEM_PROMPT_BARE q = .ok a2) :
    chatCalls (api_query c p).2 =
      [(c.SYSTEM_PROMPT_RAG,
        "Question:\n" ++ q ++ "\n\nContext:\n" ++ c.buildContext hits),
       (c.SYSTEM_PROMPT_BARE, q)] ∧
    (api_query c p).1 =
      .success a1 hits a2 (pyIntOr p.top_k c.TOP_K_DEFAULT) := by
  subst hq
  unfold api_query
  rw [if_neg hne]
  simp only [hr, h1, h2]
  exact ⟨rfl, trivial⟩

theorem scoreChunks_length (sim : α → Except String ℚ) :
    ∀ (l : List α) (scored : List (α × ℚ)),
      scoreChunks sim l = .ok scored → scored.length = l.length := by
  intro l
  induction l with
  | nil =>
    intro scored h
    unfold scoreChunks at h
    cases h
    rfl
  | cons a rest ih =>
    intro scored h
    unfold scoreChunks at h
    rcases hs : sim a with m | s <;> rw [hs] at h
    · cases h
    · rcases ht : scoreChunks sim rest with m | tail <;> rw [ht] at h
      · cases h
      · cases h
        simp [ih tail ht]

/-- C2: against any loaded index whose similarity scoring succeeds, and any
positive `top_k`, retrieval returns exactly `min(top_k, index size)` hits
(so an oversized `top_k` is clamped, not an error), ordered by strictly
compatible ranking: each hit either has a strictly larger score than every
later hit or ties it with a strictly smaller original insertion index
(descending scores, stable ties). -/
theorem C2_retrieve_contract (idx : List α) (sim : α → Except String ℚ)
    (scored : List (α × ℚ)) (topk : Int)
    (hs : scoreChunks sim idx = .ok scored) (ht : 0 < topk) :
    ∃ res, coreRetrieve (some idx) sim topk = .ok res ∧
      res.length = min topk.toNat idx.length ∧
      List.Pairwise (fun a b : Nat × α × ℚ =>
        b.2.2 < a.2.2 ∨ (a.2.2 = b.2.2 ∧ a.1 < b.1)) res := by
  refine ⟨rankHits scored topk.toNat, ?_, ?_, ?_⟩
  · simp [coreRetrieve, hs]
  · unfold rankHits
    rw [List.length_take, List.length_insertionSort, List.enum_length,
      scoreChunks_length sim idx scored hs]
  · have hsorted : List.Pairwise hitLE (List.insertionSort hitLE scored.enum) :=
      List.sorted_insertionSort hitLE scored.enum
    have hps : List.Pairwise hitLE (rankHits scored topk.toNat) :=
      hsorted.sublist (List.take_sublist _ _)
    have hperm : List.Perm (List.insertionSort hitLE scored.enum) scored.enum :=
      List.perm_insertionSort hitLE scored.enum
    have h1 : ((List.insertionSort hitLE scored.enum).map Prod.fst).Nodup :=
      ((hperm.map Prod.fst).nodup_iff).mpr (List.nodup_enum_map_fst scored)
    have hnd : ((rankHits scored topk.toNat).map Prod.fst).Nodup :=
      h1.sublist ((List.take_sublist _ _).map Prod.fst)
    have hne : List.Pairwise (fun a b : Nat × α × ℚ => a.1 ≠ b.1)
        (rankHits scored topk.toNat) := List.pairwise_map.mp hnd
    refine (hps.and hne).imp ?_
    rintro a b ⟨hle, hab⟩
    rcases hle with h | ⟨h, h'⟩
    · exact Or.inl h
    · exact Or.inr ⟨h, lt_of_le_of_ne h' hab⟩

/-- C2 witness: two chunks with tied scores and `top_k = 5` — the result is
clamped to 2 hits, in insertion order. -/
theorem C2_retrieve_contract_witness :
    scoreChunks simW idxW = .ok scoredW ∧ (0 : Int) < 5 ∧
    ∃ res, coreRetrieve (some idxW) simW 5 = .ok res ∧
      res.length = min (5 : Int).toNat idxW.length ∧
      List.Pairwise (fun a b : Nat × String × ℚ =>
        b.2.2 < a.2.2 ∨ (a.2.2 = b.2.2 ∧ a.1 < b.1)) res :=
  ⟨rfl, by decide, C2_retrieve_contract idxW simW scoredW 5 rfl (by decide)⟩

theorem chunkWindows_getElem (len size step : Nat) :
    ∀ (fuel start : Nat), len ≤ start + size + fuel * step →
      ∀ i < (chunkWindows len size step fuel start).length,
        (chunkWindows len size step fuel start)[i]? =
          some (start + i * step, min (start + i * step + size) len) := by
  intro fuel
  induction fuel with
  | zero =>
    intro start hb i hi
    simp only [chunkWindows, List.length_cons, List.length_nil] at hi
    have hi0 : i = 0 := by omega
    subst hi0
    simp only [chunkWindows, List.getElem?_cons_zero, Option.some.injEq,
      Prod.mk.injEq]
    omega
  | succ fuel ih =>
    intro start hb i hi
    by_cases hend : len ≤ start + size
    · simp only [chunkWindows, if_pos hend, List.length_cons,
        List.length_nil] at hi
      have hi0 : i = 0 := by omega
      subst hi0
      simp only [chunkWindows, if_pos hend, List.getElem?_cons_zero,
        Option.some.injEq, Prod.mk.injEq]
      omega
    · simp only [chunkWindows, if_neg hend, List.length_cons] at hi ⊢
      cases i with
      | zero =>
        simp only [List.getElem?_cons_zero, Option.some.injEq, Prod.mk.injEq]
        omega
      | succ j =>
        have hb' : len ≤ start + step + size + fuel * step := by
          have harith : start + size + (fuel + 1) * step =
              start + step + size + fuel * step := by ring
          omega
        have hj : j < (chunkWindows len size step fuel (start + step)).length := by
          omega
        have hrec := ih (start + step) hb' j hj
        rw [List.getElem?_cons_succ, hrec]
        have harith2 : start + step + j * step = start + (j + 1) * step := by ring
        rw [harith2]

/-- C3: chunking slides a window of `chunk_size` characters advancing by
`chunk_size - overlap` per step — chunk `i` spans offsets
`i*(chunk_size-overlap)` to `min(i*(chunk_size-overlap)+chunk_size, len)`,
the final chunk possibly shorter — and over a 3000-character document with
`chunk_size=1200`, `overlap=200` it yields exactly 3 chunks with offset
ranges 0-1200, 1000-2200, 2000-3000. -/
theorem C3_chunking_windows (doc : String) (hdoc : doc.length = 3000) :
    (∀ csize overlap len ranges,
      chunkRanges csize overlap len = .ok ranges →
      ∀ i < ranges.length,
        ranges[i]? =
          some (i * (csize - overlap), min (i * (csize - overlap) + csize) len)) ∧
    chunkRanges 1200 200 3000 = .ok [(0, 1200), (1000, 2200), (2000, 3000)] ∧
    ∃ cs, chunk 1200 200 doc = .ok cs ∧ cs.length = 3 ∧
      cs.map (fun c => (c.1, c.2.1)) =
        [(0, 1200), (1000, 2200), (2000, 3000)] := by
  have hgen : ∀ csize overlap len ranges,
      chunkRanges csize overlap len = .ok ranges →
      ∀ i < ranges.length,
        ranges[i]? =
          some (i * (csize - overlap), min (i * (csize - overlap) + csize) len) := by
    intro csize overlap len ranges h i hi
    unfold chunkRanges at h
    by_cases hv : overlap < csize
    · rw [if_pos hv] at h
      cases h
      have hb : len ≤ 0 + csize + len * (csize - overlap) := by
        have hstep : 1 ≤ csize - overlap := by omega
        have : len * 1 ≤ len * (csize - overlap) :=
          Nat.mul_le_mul_left len hstep
        omega
      have := chunkWindows_getElem len csize (csize - overlap) len 0 hb i hi
      simpa using this
    · rw [if_neg hv] at h
      cases h
  have hscen : chunkRanges 1200 200 3000 =
      .ok [(0, 1200), (1000, 2200), (2000, 3000)] := rfl
  refine ⟨hgen, hscen, ?_⟩
  refine ⟨[(0, 1200), (1000, 2200), (2000, 3000)].map
    (fun r => (r.1, r.2, String.mk ((doc.data.drop r.1).take (r.2 - r.1)))), ?_, ?_, ?_⟩
  · unfold chunk
    rw [hdoc, hscen]
    rfl
  · rfl
  · simp

theorem docW_length : docW.length = 3000 := by
  show (List.replicate 3000 'x').length = 3000
  exact List.length_replicate 3000 'x'

/-- C3 witness: the scenario instance, and the general window formula
evaluated at the middle chunk of the scenario. -/
theorem C3_chunking_windows_witness :
    chunkRanges 1200 200 3000 = .ok [(0, 1200), (1000, 2200), (2000, 3000)] ∧
    ([(0, 1200), (1000, 2200), (2000, 3000)] : List (Nat × Nat))[1]? =
      some (1 * (1200 - 200), min (1 * (1200 - 200) + 1200) 3000) :=
  ⟨(C3_chunking_windows docW docW_length).2.1,
   (C3_chunking_windows docW docW_length).1 1200 200 3000
     [(0, 1200), (1000, 2200), (2000, 3000)]
     (C3_chunking_windows docW docW_length).2.1 1 (by decide)⟩

theorem pyBasename_no_slash (s : String) (c : Char)
    (hc : c ∈ (pyBasename s).data) : c ≠ '/' := by
  replace hc : c ∈ (s.data.reverse.takeWhile
      (fun x : Char => decide (x ≠ '/'))).reverse := hc
  rw [List.mem_reverse] at hc
  have := List.mem_takeWhile_imp hc
  simpa using this

/-- C10: the upload route saves a file exactly when its basename is
non-empty and its lowercased extension is allowed; every saved name is free
of directory separators and (whenever the empty extension is not allowed,
as for real extension lists) is not `.` or `..`, so the write stays inside
the data directory; non-qualifying files are silently skipped, and the
route fails with HTTP 400 exactly when no file qualifies. -/
theorem C10_upload_safety (allowed : List String) (files : List UploadFileIn)
    (hext : "" ∉ allowed) :
    (∀ uf n, savedName allowed uf = some n ↔
      (n = pyBasename (uf.filename.getD "") ∧ n ≠ "" ∧
        pyLower (pySplitextExt n) ∈ allowed)) ∧
    (∀ uf n, savedName allowed uf = some n →
      (∀ c ∈ n.data, c ≠ '/') ∧ n ≠ "." ∧ n ≠ "..") ∧
    (upload allowed files =
        .httpError 400 "No files saved (empty selection or unsupported extensions)" ↔
      ∀ uf ∈ files, savedName allowed uf = none) ∧
    ((∃ uf ∈ files, savedName allowed uf ≠ none) →
      upload allowed files = .ok (files.filterMap
        (fun uf => (savedName allowed uf).map (fun n => (n, uf.content))))) := by
  have hA : ∀ uf n, savedName allowed uf = some n ↔
      (n = pyBasename (uf.filename.getD "") ∧ n ≠ "" ∧
        pyLower (pySplitextExt n) ∈ allowed) := by
    intro uf n
    constructor
    · intro h
      simp only [savedName] at h
      by_cases h1 : pyBasename (uf.filename.getD "") = ""
      · rw [if_pos h1] at h
        simp at h
      · rw [if_neg h1] at h
        by_cases h2 : pyLower (pySplitextExt (pyBasename (uf.filename.getD ""))) ∈ allowed
        · rw [if_pos h2] at h
          cases h
          exact ⟨rfl, h1, h2⟩
        · rw [if_neg h2] at h
          simp at h
    · rintro ⟨rfl, h1, h2⟩
      simp only [savedName]
      rw [if_neg h1, if_pos h2]
  have hB : ∀ uf n, savedName allowed uf = some n →
      (∀ c ∈ n.data, c ≠ '/') ∧ n ≠ "." ∧ n ≠ ".." := by
    intro uf n h
    obtain ⟨hn, hne, hmem⟩ := (hA uf n).mp h
    refine ⟨?_, ?_, ?_⟩
    · intro ch hc
      rw [hn] at hc
      exact pyBasename_no_slash _ ch hc
    · intro hdot
      rw [hdot] at hmem
      have hred : pyLower (pySplitextExt ".") = "" := rfl
      rw [hred] at hmem
      exact hext hmem
    · intro hdot
      rw [hdot] at hmem
      have hred : pyLower (pySplitextExt "..") = "" := rfl
      rw [hred] at hmem
      exact hext hmem
  have hC : (upload allowed files =
      .httpError 400 "No files saved (empty selection or unsupported extensions)" ↔
      ∀ uf ∈ files, savedName allowed uf = none) := by
    simp only [upload]
    by_cases hnil : files.filterMap
        (fun uf => (savedName allowed uf).map (fun n => (n, uf.content))) = []
    · rw [if_pos hnil]
      constructor
      · intro _ uf huf
        have hm := List.filterMap_eq_nil_iff.mp hnil uf huf
        exact Option.map_eq_none'.mp hm
      · intro _
        rfl
    · rw [if_neg hnil]
      constructor
      · intro h
        simp at h
      · intro hall
        exfalso
        apply hnil
        rw [List.filterMap_eq_nil_iff]
        intro uf huf
        rw [hall uf huf]
        rfl
  have hD : (∃ uf ∈ files, savedName allowed uf ≠ none) →
      upload allowed files = .ok (files.filterMap
        (fun uf => (savedName allowed uf).map (fun n => (n, uf.content)))) := by
    rintro ⟨uf, huf, hsome⟩
    simp only [upload]
    rw [if_neg ?_]
    intro hnil
    exact hsome (Option.map_eq_none'.mp (List.filterMap_eq_nil_iff.mp hnil uf huf))
  exact ⟨hA, hB, hC, hD⟩

/-- C10 witness: of three concrete uploads — `docs/a.txt` (admissible,
saved under its basename), `b.exe` (skipped), and a missing filename
(skipped) — exactly the first is saved. -/
theorem C10_upload_safety_witness :
    upload allowedW filesW = .ok (filesW.filterMap
      (fun uf => (savedName allowedW uf).map (fun n => (n, uf.content)))) :=
  (C10_upload_safety allowedW filesW (by decide)).2.2.2
    ⟨{ filename := some "docs/a.txt", content := 3 }, by decide, by decide⟩

/-- C1 witness: the concrete interface makes exactly the two expected chat
calls and returns both answers. -/
theorem C1_two_generation_calls_witness :
    chatCalls (api_query cW pW).2 =
      [(cW.SYSTEM_PROMPT_RAG,
        "Question:\n" ++ "hi" ++ "\n\nContext:\n" ++ cW.buildContext hitsW),
       (cW.SYSTEM_PROMPT_BARE, "hi")] ∧
    (api_query cW pW).1 =
      .success "ans:ragsys" hitsW "ans:baresys"
        (pyIntOr pW.top_k cW.TOP_K_DEFAULT) :=
  C1_two_generation_calls cW pW "hi" "ans:ragsys" "ans:baresys" hitsW
    (by decide) (by decide) rfl rfl rfl

end LocalRag
